import Mathlib

/-!
Verification development for the trunk-player radio application.

The definitions below are a shallow embedding of the Python source under
`radio/` (models.py, api/views.py, serializers.py, consumers.py) together
with the relevant Django framework semantics the source relies on
(`Model.__init__` keyword checking, `QuerySet.get_or_create`, `str.replace`,
`django.utils.text.slugify`).  Machine integers are modelled as `Int`/`Nat`,
timestamps as integral epoch seconds, and database tables as Lean lists with
explicit primary keys.  Settings read from the environment
(`ACCESS_TG_RESTRICT`, `ANONYMOUS_TIME`, `FIX_AUDIO_NAME`,
`ADD_TRANS_AUTH_TOKEN`) are passed as explicit parameters.
-/

/-- Python `str.replace pat repl` restricted to a non-empty pattern: replaces
every non-overlapping occurrence, scanning left to right.  `fuel` bounds the
recursion; callers pass the length of the string, which suffices because each
step consumes at least one character. -/
def pyReplaceAux (pat repl : List Char) : Nat → List Char → List Char
  | 0, s => s
  | _, [] => []
  | fuel + 1, c :: rest =>
    if pat ≠ [] ∧ pat.isPrefixOf (c :: rest) then
      repl ++ pyReplaceAux pat repl fuel ((c :: rest).drop pat.length)
    else
      c :: pyReplaceAux pat repl fuel rest

/-- Python `s.replace(pat, repl)` for a non-empty `pat` (every use in the
source has a non-empty pattern; for an empty `pat` this returns `s`). -/
def pyReplace (s pat repl : String) : String :=
  String.mk (pyReplaceAux pat.toList repl.toList s.toList.length s.toList)

/-- Collapse every run of consecutive hyphens to a single hyphen. -/
def collapseDashes : List Char → List Char
  | [] => []
  | [c] => [c]
  | c :: d :: rest =>
    if c = '-' ∧ d = '-' then collapseDashes (d :: rest)
    else c :: collapseDashes (d :: rest)

/-- Character-level step of `django.utils.text.slugify` for ASCII input:
word characters are kept lower-cased, whitespace and hyphens become a
hyphen, everything else is dropped. -/
def slugifyMap : List Char → List Char
  | [] => []
  | c :: rest =>
    if c.isAlphanum ∨ c = '_' then c.toLower :: slugifyMap rest
    else if c = ' ' ∨ c = '-' ∨ c = '\t' ∨ c = '\n' then '-' :: slugifyMap rest
    else slugifyMap rest

/-- `django.utils.text.slugify` for ASCII input: lower-case word characters,
runs of whitespace/hyphens collapsed to one hyphen, leading and trailing
hyphens/underscores stripped. -/
def slugify (s : String) : String :=
  let l := collapseDashes (slugifyMap s.toList)
  let l := l.dropWhile (fun c => c = '-' ∨ c = '_')
  let l := (l.reverse.dropWhile (fun c => c = '-' ∨ c = '_')).reverse
  String.mk l

/-- A row of the `System` table (radio/models.py, class System). -/
structure SystemRow where
  pk : Nat
  name : String
  slug : String
deriving Repr, DecidableEq

/-- A row of the `TalkGroup` table (radio/models.py, class TalkGroup).
`lastTransmission` is `none` while the column is NULL. -/
structure TalkGroupRow where
  pk : Nat
  systemPk : Nat
  decId : Int
  alphaTag : String
  commonName : String
  isPublic : Bool
  slug : String
  lastTransmission : Option Int
deriving Repr, DecidableEq

/-- `TalkGroup.display_name` (radio/models.py): the Python or-chain
`common_name or alpha_tag or f"TG {dec_id}"`, where an empty string is
falsy. -/
def TalkGroupRow.displayName (tg : TalkGroupRow) : String :=
  if tg.commonName ≠ "" then tg.commonName
  else if tg.alphaTag ≠ "" then tg.alphaTag
  else "TG " ++ toString tg.decId

/-- A row of the `Unit` table (radio/models.py, class Unit). -/
structure UnitRow where
  pk : Nat
  systemPk : Nat
  decId : Int
  description : String
  slug : String
deriving Repr, DecidableEq

/-- A row of the `Transmission` table (radio/models.py, class Transmission).
`slug` is the UUID column (`uuid.uuid4`, opaque and non-sequential); `pk` is
the implicit sequential `BigAutoField` row id.  `unitsJson` holds the
denormalized `{id, name}` snapshots. -/
structure TransmissionRec where
  pk : Nat
  slug : String
  startDatetime : Int
  endDatetime : Option Int
  playLength : Int
  audioFile : String
  systemId : Option Nat
  talkgroupInfoId : Option Nat
  talkgroupDecId : Int
  talkgroupName : String
  systemName : String
  unitsJson : List (Int × String)
  freq : Option Int
  emergency : Bool
deriving Repr, DecidableEq

/-- `Transmission.save` (radio/models.py lines 453-468).  `talkgroupInfo`
and `system` are the rows currently referenced by the foreign keys (`none`
when the FK is unset, mirroring the `if self.talkgroup_info_id:` and
`if self.system_id:` truthiness guards).  Each denormalized field is filled
only when it is falsy (0 for `talkgroup_dec_id`, the empty string for the
names); `fixAudioName` is the `FIX_AUDIO_NAME` setting. -/
def TransmissionRec.save (fixAudioName : Bool) (talkgroupInfo : Option TalkGroupRow)
    (system : Option SystemRow) (t : TransmissionRec) : TransmissionRec :=
  let t1 :=
    match talkgroupInfo with
    | some tg =>
      let a := if t.talkgroupDecId = 0 then { t with talkgroupDecId := tg.decId } else t
      if a.talkgroupName = "" then { a with talkgroupName := tg.displayName } else a
    | none => t
  let t2 :=
    match system with
    | some s => if t1.systemName = "" then { t1 with systemName := s.name } else t1
    | none => t1
  if fixAudioName then { t2 with audioFile := pyReplace t2.audioFile "+" "%2B" } else t2

/-- `TalkGroup.display_name` is never the empty string: the final fallback
is the non-empty literal `TG <dec_id>`. -/
theorem TalkGroupRow.displayName_ne_empty (tg : TalkGroupRow) : tg.displayName ≠ "" := by
  unfold TalkGroupRow.displayName
  split_ifs with h1 h2
  · exact h1
  · exact h2
  · intro h
    have hlen := congrArg String.length h
    rw [String.length_append] at hlen
    have h3 : ("TG " : String).length = 3 := rfl
    have h0 : ("" : String).length = 0 := rfl
    omega

/-- After `Transmission.save` the denormalized `talkgroup_name` is the
referenced talkgroup's display name when it was blank, and untouched
otherwise. -/
theorem TransmissionRec.save_talkgroupName (fix : Bool) (tg : TalkGroupRow)
    (s : SystemRow) (t : TransmissionRec) :
    (t.save fix (some tg) (some s)).talkgroupName =
      if t.talkgroupName = "" then tg.displayName else t.talkgroupName := by
  unfold TransmissionRec.save
  dsimp only
  split_ifs <;> simp_all

/-- After `Transmission.save` the denormalized `system_name` is the
referenced system's name when it was blank, and untouched otherwise. -/
theorem TransmissionRec.save_systemName (fix : Bool) (tg : TalkGroupRow)
    (s : SystemRow) (t : TransmissionRec) :
    (t.save fix (some tg) (some s)).systemName =
      if t.systemName = "" then s.name else t.systemName := by
  unfold TransmissionRec.save
  dsimp only
  split_ifs <;> simp_all

/-- C8: a transmission whose denormalized names are blank gets them filled at
save time from the referenced TalkGroup's display name and System's name,
and once non-blank they survive any later save unchanged, even when the
referenced rows have been renamed in the meantime (`tg1`, `s1` are the
renamed rows). -/
theorem transmission_save_denormalized_snapshot
    (fix0 fix1 : Bool) (t : TransmissionRec) (tg tg1 : TalkGroupRow)
    (s s1 : SystemRow)
    (htg : t.talkgroupName = "") (hs : t.systemName = "") (hname : s.name ≠ "") :
    ((t.save fix0 (some tg) (some s)).talkgroupName = tg.displayName) ∧
    ((t.save fix0 (some tg) (some s)).systemName = s.name) ∧
    (((t.save fix0 (some tg) (some s)).save fix1 (some tg1) (some s1)).talkgroupName
        = (t.save fix0 (some tg) (some s)).talkgroupName) ∧
    (((t.save fix0 (some tg) (some s)).save fix1 (some tg1) (some s1)).systemName
        = (t.save fix0 (some tg) (some s)).systemName) := by
  have h3 := TransmissionRec.save_talkgroupName fix1 tg1 s1 (t.save fix0 (some tg) (some s))
  have h4 := TransmissionRec.save_systemName fix1 tg1 s1 (t.save fix0 (some tg) (some s))
  have h1 : (t.save fix0 (some tg) (some s)).talkgroupName = tg.displayName := by
    simp [TransmissionRec.save_talkgroupName, htg]
  have h2 : (t.save fix0 (some tg) (some s)).systemName = s.name := by
    simp [TransmissionRec.save_systemName, hs]
  refine ⟨h1, h2, ?_, ?_⟩
  · rw [h3, h1, if_neg (TalkGroupRow.displayName_ne_empty tg)]
  · rw [h4, h2, if_neg hname]

/-- Witness for C8 at concrete rows. -/
theorem transmission_save_denormalized_snapshot_witness :
    let t : TransmissionRec :=
      { pk := 1, slug := "u1", startDatetime := 0, endDatetime := none,
        playLength := 0, audioFile := "a.mp3", systemId := some 1,
        talkgroupInfoId := some 2, talkgroupDecId := 0, talkgroupName := "",
        systemName := "", unitsJson := [], freq := none, emergency := false }
    let tg : TalkGroupRow :=
      { pk := 2, systemPk := 1, decId := 1000, alphaTag := "PD Disp",
        commonName := "", isPublic := true, slug := "metro-pd-disp",
        lastTransmission := none }
    let tgRenamed : TalkGroupRow := { tg with alphaTag := "Renamed" }
    let s : SystemRow := { pk := 1, name := "Metro", slug := "metro" }
    let sRenamed : SystemRow := { s with name := "Metro2" }
    ((t.save false (some tg) (some s)).talkgroupName = tg.displayName) ∧
    ((t.save false (some tg) (some s)).systemName = s.name) ∧
    (((t.save false (some tg) (some s)).save false (some tgRenamed) (some sRenamed)).talkgroupName
        = (t.save false (some tg) (some s)).talkgroupName) ∧
    (((t.save false (some tg) (some s)).save false (some tgRenamed) (some sRenamed)).systemName
        = (t.save false (some tg) (some s)).systemName) := by
  intro t tg tgRenamed s sRenamed
  exact transmission_save_denormalized_snapshot false false t tg tgRenamed s sRenamed
    rfl rfl (by decide)

/-- A row of the `TransmissionUnit` junction table (radio/models.py).
`order` is the display order index. -/
structure TransmissionUnitRow where
  transmissionPk : Nat
  unitPk : Nat
  order : Nat
deriving Repr, DecidableEq

/-- A row of the `ScanList` table (radio/models.py): `talkgroups` holds the
primary keys of its member talkgroups (the M2M relation). -/
structure ScanListRow where
  pk : Nat
  slug : String
  talkgroups : List Nat
deriving Repr, DecidableEq

/-- A row of the `TalkGroupAccess` table (radio/models.py): `talkgroups`
holds the primary keys of its member talkgroups (the M2M relation). -/
structure TalkGroupAccessRow where
  pk : Nat
  talkgroups : List Nat
deriving Repr, DecidableEq

/-- The relational state the claims touch.  `nextPk` is the source of fresh
primary keys (each Django table has its own sequence; a single shared
counter still assigns every new row a unique pk, which is all the claims
depend on). -/
structure DB where
  systems : List SystemRow
  talkgroups : List TalkGroupRow
  units : List UnitRow
  transmissions : List TransmissionRec
  transmissionUnits : List TransmissionUnitRow
  scanlists : List ScanListRow
  accessGroups : List TalkGroupAccessRow
  nextPk : Nat
deriving Repr, DecidableEq

def DB.empty : DB :=
  { systems := [], talkgroups := [], units := [], transmissions := [],
    transmissionUnits := [], scanlists := [], accessGroups := [], nextPk := 1 }

/-- `System.objects.get_or_create(name=...)`: return the existing row with
that unique name, or insert one.  The insert runs `System.save`
(radio/models.py), which fills the blank slug with `slugify(name)`. -/
def SystemRow.getOrCreate (db : DB) (name : String) : SystemRow × DB :=
  match db.systems.find? (fun s => s.name == name) with
  | some s => (s, db)
  | none =>
    let s : SystemRow := { pk := db.nextPk, name := name, slug := slugify name }
    (s, { db with systems := db.systems ++ [s], nextPk := db.nextPk + 1 })

/-- `TalkGroup.objects.get_or_create(system=..., dec_id=...,
defaults={"alpha_tag": f"TG {dec_id}"})` (radio/api/views.py lines
341-346).  The insert runs `TalkGroup.save` (radio/models.py): the blank
slug becomes `f"{system.slug}-{slugify(alpha_tag)}"` and the NULL
`last_transmission` becomes the current time.  (The `post_save` signal that
adds new public talkgroups to default access groups only mutates
`TalkGroupAccess` rows, which no claim about this path reads.) -/
def TalkGroupRow.getOrCreate (db : DB) (system : SystemRow) (decId : Int)
    (now : Int) : TalkGroupRow × DB :=
  match db.talkgroups.find? (fun tg => tg.systemPk == system.pk && tg.decId == decId) with
  | some tg => (tg, db)
  | none =>
    let alphaTag := "TG " ++ toString decId
    let tg : TalkGroupRow :=
      { pk := db.nextPk, systemPk := system.pk, decId := decId,
        alphaTag := alphaTag, commonName := "", isPublic := true,
        slug := system.slug ++ "-" ++ slugify alphaTag,
        lastTransmission := some now }
    (tg, { db with talkgroups := db.talkgroups ++ [tg], nextPk := db.nextPk + 1 })

/-- `Unit.objects.get_or_create(system=..., dec_id=...)` (radio/api/views.py
lines 376-379).  The insert runs `Unit.save` (radio/models.py): description
is blank, so the slug becomes `f"{system.slug}-{slugify(str(dec_id))}"`. -/
def UnitRow.getOrCreate (db : DB) (system : SystemRow) (decId : Int) :
    UnitRow × DB :=
  match db.units.find? (fun u => u.systemPk == system.pk && u.decId == decId) with
  | some u => (u, db)
  | none =>
    let u : UnitRow :=
      { pk := db.nextPk, systemPk := system.pk, decId := decId,
        description := "", slug := system.slug ++ "-" ++ slugify (toString decId) }
    (u, { db with units := db.units ++ [u], nextPk := db.nextPk + 1 })

/-- The columns of the `Transmission` model (radio/models.py, class
Transmission), `id` being the implicit `BigAutoField` primary key.  This is
what `django.db.models.Model.__init__` accepts as keyword arguments. -/
def transmissionFieldNames : List String :=
  ["id", "slug", "start_datetime", "end_datetime", "play_length",
   "audio_file", "system", "talkgroup_info", "talkgroup_dec_id",
   "talkgroup_name", "system_name", "units_json", "freq", "emergency",
   "created_at"]

/-- The Python `property` attributes of the `Transmission` class, which
`Model.__init__` also accepts as keyword arguments. -/
def transmissionPropertyNames : List String :=
  ["audio_url", "local_start_datetime"]

/-- The keyword arguments `TransmissionImportView.post` passes to
`Transmission.objects.create` (radio/api/views.py lines 357-370). -/
def transmissionImportCreateKwargs : List String :=
  ["system", "talkgroup_info", "talkgroup", "start_datetime", "end_datetime",
   "audio_file", "audio_file_url_path", "audio_file_type", "play_length",
   "has_audio", "emergency", "freq"]

/-- The keyword arguments of that `create` call that name neither a model
field nor a property.  `Model.__init__` raises
`TypeError("got unexpected keyword arguments")` whenever this list is
non-empty: `talkgroup` was renamed to `talkgroup_dec_id` and
`audio_file_url_path`/`audio_file_type`/`has_audio` were removed by
migration 0004_transmission_scale_optimization. -/
def transmissionUnexpectedKwargs : List String :=
  transmissionImportCreateKwargs.filter
    (fun k => !(transmissionFieldNames.contains k)
      && !(transmissionPropertyNames.contains k))

/-- The validated data of `TransmissionImportSerializer`
(radio/serializers.py lines 383-401).  `srcList` keeps, per entry, the
result of `unit_data.get("src")`: `none` when the key is missing or null.
The float epoch timestamps are modelled at whole-second granularity; no
claim depends on fractional seconds. -/
structure ImportPayload where
  system : String
  talkgroup : Int
  startTime : Int
  stopTime : Int
  audioFilename : String
  audioFileUrlPath : String
  audioFileType : String
  audioFilePlayLength : Int
  hasAudio : Bool
  emergency : Bool
  freq : Option Int
  srcList : List (Option Int)
deriving Repr, DecidableEq

/-- The JSON body of the import endpoint's response: `transmissionId` is the
`transmission_id` field of the 201 body (absent on errors). -/
structure ImportResponse where
  status : Nat
  transmissionId : Option Nat
deriving Repr, DecidableEq

/-- The unit loop of `TransmissionImportView.post` (radio/api/views.py lines
372-384): for each `(idx, unit_data)` of `enumerate(srcList)`, when
`unit_data.get("src")` is truthy (present, non-null, non-zero) the unit is
resolved-or-created and a junction row with `order = idx` is inserted;
otherwise the entry is skipped.  Each insert autocommits (there is no
surrounding transaction block). -/
def addUnits (system : SystemRow) (transmissionPk : Nat)
    (srcList : List (Option Int)) (db : DB) : DB :=
  srcList.enum.foldl
    (fun db entry =>
      match entry.2 with
      | some v =>
        if v ≠ 0 then
          let r := UnitRow.getOrCreate db system v
          { r.2 with transmissionUnits := r.2.transmissionUnits ++
              [{ transmissionPk := transmissionPk, unitPk := r.1.pk,
                 order := entry.1 }] }
        else db
      | none => db)
    db

/-- `TransmissionImportView.post` (radio/api/views.py lines 326-396) after
serializer validation succeeded, with the request already authorized.
Mirrors the source's try block under Django's default autocommit: every
completed ORM write is immediately durable, and the blanket
`except Exception` turns any raise into a 500 response without undoing
earlier writes.  `Transmission.objects.create` raises `TypeError` because
`transmissionUnexpectedKwargs` is non-empty, so the success branch below is
unreachable for the kwargs the source passes; it is still written out as
the source has it (note it answers with `transmission.pk`, the sequential
row id, not the UUID `slug`; the `post_save` fan-out signal is modelled
separately by `sendTransmissionNotification`). -/
def TransmissionImportView.post (fixAudioName : Bool) (now : Int)
    (payload : ImportPayload) (db : DB) : ImportResponse × DB :=
  let r1 := SystemRow.getOrCreate db payload.system
  let system := r1.1
  let r2 := TalkGroupRow.getOrCreate r1.2 system payload.talkgroup now
  let talkgroup := r2.1
  let db2 := r2.2
  if transmissionUnexpectedKwargs ≠ [] then
    ({ status := 500, transmissionId := none }, db2)
  else
    let t0 : TransmissionRec :=
      { pk := db2.nextPk, slug := "uuid4-" ++ toString db2.nextPk,
        startDatetime := payload.startTime,
        endDatetime := some payload.stopTime,
        playLength := payload.audioFilePlayLength,
        audioFile := payload.audioFilename,
        systemId := some system.pk, talkgroupInfoId := some talkgroup.pk,
        talkgroupDecId := 0, talkgroupName := "", systemName := "",
        unitsJson := [], freq := payload.freq,
        emergency := payload.emergency }
    let t := t0.save fixAudioName (some talkgroup) (some system)
    let db3 :=
      { db2 with
        transmissions := db2.transmissions ++ [t]
        nextPk := db2.nextPk + 1 }
    let db4 := addUnits system t.pk payload.srcList db3
    ({ status := 201, transmissionId := some t.pk }, db4)

/-- A minimal valid import payload (all serializer-required fields present). -/
def samplePayloadNoUnits : ImportPayload :=
  { system := "Metro", talkgroup := 1000, startTime := 1700000000,
    stopTime := 1700000010, audioFilename := "a.mp3",
    audioFileUrlPath := "/", audioFileType := "mp3",
    audioFilePlayLength := 10, hasAudio := true, emergency := false,
    freq := none, srcList := [] }

/-- A valid import payload with two contributing units. -/
def samplePayloadTwoUnits : ImportPayload :=
  { samplePayloadNoUnits with srcList := [some 100, some 200] }

/-- A valid import payload with one contributing unit. -/
def samplePayloadOneUnit : ImportPayload :=
  { samplePayloadNoUnits with srcList := [some 5] }

/-- C1: the import endpoint cannot answer 201 with the transmission's opaque
identifier, because `Transmission.objects.create` is called with keyword
arguments (`talkgroup`, `audio_file_url_path`, `audio_file_type`,
`has_audio`) that name no field of the model, so every import — here a
fully valid payload — raises `TypeError` and returns 500 with no
transmission created; the success branch the source wrote would moreover
answer with the sequential row id `transmission.pk`, not the UUID `slug`. -/
theorem import_valid_payload_returns_500_not_opaque_id :
    transmissionUnexpectedKwargs =
      ["talkgroup", "audio_file_url_path", "audio_file_type", "has_audio"] ∧
    (TransmissionImportView.post false 1700000000 samplePayloadNoUnits DB.empty).1 =
      { status := 500, transmissionId := none } ∧
    ((TransmissionImportView.post false 1700000000 samplePayloadNoUnits DB.empty).2).transmissions = [] := by
  decide

/-- C2: the import handler runs under autocommit with no transaction block:
evaluated at a valid payload carrying two units, the handler's failure
(500) still leaves behind the freshly created `System` and `TalkGroup` rows
— earlier writes of the same request are not rolled back, so the handler's
writes are not atomic; no transmission or junction row is ever written
because `Transmission.objects.create` raises before the unit loop. -/
theorem import_no_transaction_partial_writes_persist :
    (TransmissionImportView.post false 1700000000 samplePayloadTwoUnits DB.empty).1.status = 500 ∧
    ((TransmissionImportView.post false 1700000000 samplePayloadTwoUnits DB.empty).2).systems.length = 1 ∧
    ((TransmissionImportView.post false 1700000000 samplePayloadTwoUnits DB.empty).2).talkgroups.length = 1 ∧
    ((TransmissionImportView.post false 1700000000 samplePayloadTwoUnits DB.empty).2).transmissions = [] ∧
    ((TransmissionImportView.post false 1700000000 samplePayloadTwoUnits DB.empty).2).transmissionUnits = [] := by
  decide

/-- The database visible to the unit loop in isolation: one system row. -/
def dbWithMetro : DB :=
  { DB.empty with
    systems := [{ pk := 1, name := "Metro", slug := "metro" }]
    nextPk := 2 }

/-- C10: the unit loop itself (lines 372-384) skips entries whose `src` is
missing/null (`none`) or zero, and links each remaining entry with a
junction row whose `order` is the entry's positional index in the original
`srcList` (so skipped entries leave gaps: orders 0 and 3 below) — but
during an actual import the loop is unreachable: the same valid payload
returns 500 with no junction row and no unit created, because
`Transmission.objects.create` raises `TypeError` first. -/
theorem import_srclist_falsy_skipped_orders_gapped :
    ((addUnits { pk := 1, name := "Metro", slug := "metro" } 42
        [some 5, none, some 0, some 7] dbWithMetro).transmissionUnits.map
      (fun r => (r.unitPk, r.order)) = [(2, 0), (3, 3)]) ∧
    ((addUnits { pk := 1, name := "Metro", slug := "metro" } 42
        [some 5, none, some 0, some 7] dbWithMetro).units.map
      (fun u => u.decId) = [5, 7]) ∧
    (TransmissionImportView.post false 1700000000 samplePayloadOneUnit DB.empty).1.status = 500 ∧
    ((TransmissionImportView.post false 1700000000 samplePayloadOneUnit DB.empty).2).units = [] ∧
    ((TransmissionImportView.post false 1700000000 samplePayloadOneUnit DB.empty).2).transmissionUnits = [] := by
  decide

/-- A `Profile` row (radio/models.py, class Profile): `planHistory` is the
referenced `Plan`'s `history` minutes (`none` while the nullable plan FK is
unset), `talkgroupAccess` the pks of the profile's `TalkGroupAccess`
groups. -/
structure ProfileRec where
  planHistory : Option Int
  talkgroupAccess : List Nat
deriving Repr, DecidableEq

/-- `Profile.history_limit` (radio/models.py): the plan's history window in
minutes, or 0 without a plan. -/
def ProfileRec.historyLimit (p : ProfileRec) : Int :=
  match p.planHistory with
  | some h => h
  | none => 0

/-- The requesting principal: `profile = none` models the
`Profile.DoesNotExist` case for an authenticated user. -/
structure UserRec where
  isAuthenticated : Bool
  profile : Option ProfileRec
deriving Repr, DecidableEq

/-- `Profile.get_accessible_talkgroups` (radio/models.py lines 749-756):
all talkgroups when `ACCESS_TG_RESTRICT` is off, otherwise
`TalkGroup.objects.filter(access_groups__in=self.talkgroup_access.all())
.distinct()` — the talkgroups appearing in at least one of the profile's
access groups. -/
def ProfileRec.getAccessibleTalkgroups (accessTgRestrict : Bool) (db : DB)
    (p : ProfileRec) : List TalkGroupRow :=
  if !accessTgRestrict then db.talkgroups
  else db.talkgroups.filter (fun tg =>
    db.accessGroups.any (fun g =>
      p.talkgroupAccess.any (fun a => a == g.pk)
        && g.talkgroups.any (fun m => m == tg.pk)))

/-- `TalkGroupAccessMixin.get_accessible_talkgroups` (radio/api/views.py
lines 82-97): everything when restriction is off; public talkgroups for an
anonymous user; for an authenticated user the profile's accessible set,
falling back to the public set when the profile row does not exist. -/
def TalkGroupAccessMixin.getAccessibleTalkgroups (accessTgRestrict : Bool)
    (db : DB) (user : UserRec) : List TalkGroupRow :=
  if !accessTgRestrict then db.talkgroups
  else if !user.isAuthenticated then db.talkgroups.filter (fun tg => tg.isPublic)
  else
    match user.profile with
    | some p => p.getAccessibleTalkgroups accessTgRestrict db
    | none => db.talkgroups.filter (fun tg => tg.isPublic)

/-- C5: with access restriction enabled, the accessible set is exactly the
public talkgroups for an anonymous principal, exactly the public talkgroups
for an authenticated principal without a profile row, and exactly the union
of the access groups' talkgroups for a principal with a profile; with
restriction disabled it is all talkgroups for every principal. -/
theorem accessible_talkgroups_cases (db : DB) (tg : TalkGroupRow)
    (anyUser anon authNoProfile authWithProfile : UserRec) (p : ProfileRec)
    (h1 : anon.isAuthenticated = false)
    (h2 : authNoProfile.isAuthenticated = true)
    (h3 : authNoProfile.profile = none)
    (h4 : authWithProfile.isAuthenticated = true)
    (h5 : authWithProfile.profile = some p) :
    (TalkGroupAccessMixin.getAccessibleTalkgroups false db anyUser = db.talkgroups) ∧
    (tg ∈ TalkGroupAccessMixin.getAccessibleTalkgroups true db anon ↔
      tg ∈ db.talkgroups ∧ tg.isPublic = true) ∧
    (tg ∈ TalkGroupAccessMixin.getAccessibleTalkgroups true db authNoProfile ↔
      tg ∈ db.talkgroups ∧ tg.isPublic = true) ∧
    (tg ∈ TalkGroupAccessMixin.getAccessibleTalkgroups true db authWithProfile ↔
      tg ∈ db.talkgroups ∧ ∃ g ∈ db.accessGroups,
        g.pk ∈ p.talkgroupAccess ∧ tg.pk ∈ g.talkgroups) := by
  refine ⟨?_, ?_, ?_, ?_⟩
  · simp [TalkGroupAccessMixin.getAccessibleTalkgroups]
  · simp [TalkGroupAccessMixin.getAccessibleTalkgroups, h1, List.mem_filter]
  · simp [TalkGroupAccessMixin.getAccessibleTalkgroups, h2, h3, List.mem_filter]
  · simp only [TalkGroupAccessMixin.getAccessibleTalkgroups,
      ProfileRec.getAccessibleTalkgroups, h4, h5, Bool.not_true,
      Bool.false_eq_true, if_false, List.mem_filter]
    constructor
    · rintro ⟨hmem, hb⟩
      refine ⟨hmem, ?_⟩
      simp only [List.any_eq_true, Bool.and_eq_true, beq_iff_eq] at hb
      obtain ⟨g, hg, ⟨a, ha, rfl⟩, m, hm, rfl⟩ := hb
      exact ⟨g, hg, ha, hm⟩
    · rintro ⟨hmem, g, hg, ha, hm⟩
      refine ⟨hmem, ?_⟩
      simp only [List.any_eq_true, Bool.and_eq_true, beq_iff_eq]
      exact ⟨g, hg, ⟨g.pk, ha, rfl⟩, tg.pk, hm, rfl⟩

/-- The private talkgroup used by the C5 witness. -/
def witnessPrivateTalkgroup : TalkGroupRow :=
  { pk := 11, systemPk := 1, decId := 2, alphaTag := "B", commonName := "",
    isPublic := false, slug := "m-b", lastTransmission := none }

/-- The public talkgroup used by the C5 witness. -/
def witnessPublicTalkgroup : TalkGroupRow :=
  { pk := 10, systemPk := 1, decId := 1, alphaTag := "A", commonName := "",
    isPublic := true, slug := "m-a", lastTransmission := none }

/-- The database used by the C5 witness: one public talkgroup, one private
talkgroup, and an access group granting the private one. -/
def witnessAccessDB : DB :=
  { DB.empty with
    talkgroups := [witnessPublicTalkgroup, witnessPrivateTalkgroup]
    accessGroups := [{ pk := 20, talkgroups := [11] }] }

/-- Witness for C5 at a concrete database and concrete principals. -/
theorem accessible_talkgroups_cases_witness :
    (UserRec.mk false none).isAuthenticated = false ∧
    (UserRec.mk true none).isAuthenticated = true ∧
    (UserRec.mk true none).profile = none ∧
    (UserRec.mk true (some (ProfileRec.mk none [20]))).isAuthenticated = true ∧
    (UserRec.mk true (some (ProfileRec.mk none [20]))).profile =
      some (ProfileRec.mk none [20]) ∧
    ((TalkGroupAccessMixin.getAccessibleTalkgroups false witnessAccessDB
        (UserRec.mk false none) = witnessAccessDB.talkgroups) ∧
      (witnessPrivateTalkgroup ∈ TalkGroupAccessMixin.getAccessibleTalkgroups true
          witnessAccessDB (UserRec.mk false none) ↔
        witnessPrivateTalkgroup ∈ witnessAccessDB.talkgroups ∧
          witnessPrivateTalkgroup.isPublic = true) ∧
      (witnessPrivateTalkgroup ∈ TalkGroupAccessMixin.getAccessibleTalkgroups true
          witnessAccessDB (UserRec.mk true none) ↔
        witnessPrivateTalkgroup ∈ witnessAccessDB.talkgroups ∧
          witnessPrivateTalkgroup.isPublic = true) ∧
      (witnessPrivateTalkgroup ∈ TalkGroupAccessMixin.getAccessibleTalkgroups true
          witnessAccessDB (UserRec.mk true (some (ProfileRec.mk none [20]))) ↔
        witnessPrivateTalkgroup ∈ witnessAccessDB.talkgroups ∧
          ∃ g ∈ witnessAccessDB.accessGroups,
            g.pk ∈ (ProfileRec.mk none [20]).talkgroupAccess ∧
              witnessPrivateTalkgroup.pk ∈ g.talkgroups)) := by
  refine ⟨rfl, rfl, rfl, rfl, rfl, ?_⟩
  exact accessible_talkgroups_cases witnessAccessDB witnessPrivateTalkgroup
    (UserRec.mk false none) (UserRec.mk false none) (UserRec.mk true none)
    (UserRec.mk true (some (ProfileRec.mk none [20]))) (ProfileRec.mk none [20])
    rfl rfl rfl rfl rfl

/-- The history window used for the requesting principal, as computed both
by `HistoryLimitMixin.apply_history_limit` (radio/api/views.py lines
105-111) and, with identical structure, by
`TransmissionSerializer.get_audio_file` (radio/serializers.py lines
180-187): the profile's `history_limit` for an authenticated user with a
profile, `ANONYMOUS_TIME` for an anonymous user or when the profile lookup
raises. -/
def historyMinutesFor (anonymousTime : Int) (user : UserRec) : Int :=
  if user.isAuthenticated then
    match user.profile with
    | some p => p.historyLimit
    | none => anonymousTime
  else anonymousTime

/-- `HistoryLimitMixin.apply_history_limit` (radio/api/views.py lines
100-117): with a positive window the queryset keeps only transmissions with
`start_datetime >= now - timedelta(minutes=history_minutes)`. -/
def HistoryLimitMixin.applyHistoryLimit (anonymousTime now : Int)
    (user : UserRec) (queryset : List TransmissionRec) : List TransmissionRec :=
  let historyMinutes := historyMinutesFor anonymousTime user
  if 0 < historyMinutes then
    queryset.filter (fun t => decide (now - historyMinutes * 60 ≤ t.startDatetime))
  else queryset

/-- `TransmissionSerializer.get_audio_file` (radio/serializers.py lines
172-195): without a request in the serializer context the file name is
returned as-is; otherwise, under a positive history window, transmissions
older than the cutoff serialize a null audio reference. -/
def TransmissionSerializer.getAudioFile (anonymousTime now : Int)
    (hasRequest : Bool) (user : UserRec) (t : TransmissionRec) : Option String :=
  if !hasRequest then some t.audioFile
  else
    let historyMinutes := historyMinutesFor anonymousTime user
    if 0 < historyMinutes ∧ t.startDatetime < now - historyMinutes * 60 then none
    else some t.audioFile

/-- `TransmissionViewSet.get_queryset` (radio/api/views.py lines 180-221)
for a request with no optional query-parameter filters: transmissions whose
talkgroup is accessible, then the history limit.  (The talkgroup / system /
unit / emergency / scanlist / incident request parameters are absent in the
requests the claims consider and are omitted.) -/
def TransmissionViewSet.getQueryset (restrict : Bool) (anonymousTime now : Int)
    (db : DB) (user : UserRec) : List TransmissionRec :=
  let accessible := TalkGroupAccessMixin.getAccessibleTalkgroups restrict db user
  let queryset := db.transmissions.filter (fun t =>
    match t.talkgroupInfoId with
    | some pk => accessible.any (fun tg => tg.pk == pk)
    | none => false)
  HistoryLimitMixin.applyHistoryLimit anonymousTime now user queryset

/-- The DRF detail route of `TransmissionViewSet` (lookup_field "slug"):
`get_object` looks the slug up inside `get_queryset()` and answers 404
(`none`) when it is not there. -/
def TransmissionViewSet.retrieve (restrict : Bool) (anonymousTime now : Int)
    (db : DB) (user : UserRec) (slug : String) : Option TransmissionRec :=
  (TransmissionViewSet.getQueryset restrict anonymousTime now db user).find?
    (fun t => t.slug == slug)

/-- The 120-minute-old transmission of the C4 scenario. -/
def oldTransmission : TransmissionRec :=
  { pk := 7, slug := "tx1", startDatetime := 0, endDatetime := some 10,
    playLength := 10, audioFile := "a.mp3", systemId := some 1,
    talkgroupInfoId := some 2, talkgroupDecId := 1000,
    talkgroupName := "TG 1000", systemName := "Metro", unitsJson := [],
    freq := none, emergency := false }

/-- The talkgroup `oldTransmission` references. -/
def oldTransmissionTalkgroup : TalkGroupRow :=
  { pk := 2, systemPk := 1, decId := 1000, alphaTag := "TG 1000",
    commonName := "", isPublic := true, slug := "metro-tg-1000",
    lastTransmission := none }

/-- The database holding `oldTransmission` and its talkgroup. -/
def dbWithOldTransmission : DB :=
  { DB.empty with
    systems := [{ pk := 1, name := "Metro", slug := "metro" }]
    talkgroups := [oldTransmissionTalkgroup]
    transmissions := [oldTransmission]
    nextPk := 8 }

/-- The authenticated principal of the C4 scenario, on a 60-minute plan. -/
def planSixtyUser : UserRec :=
  { isAuthenticated := true,
    profile := some { planHistory := some 60, talkgroupAccess := [] } }

/-- C4 counterexample: a principal on a 60-minute plan requesting the
transmission from 120 minutes ago (now = 7200s, start = 0s) does NOT get
its metadata with a null audio reference — `apply_history_limit` filters
the transmission out of the queryset entirely, so the detail request
answers 404. -/
theorem history_cutoff_detail_not_found_cex :
    TransmissionViewSet.retrieve false 43200 7200 dbWithOldTransmission
      planSixtyUser "tx1" = none ∧
    dbWithOldTransmission.transmissions = [oldTransmission] := by
  decide

/-- C4 amended: under a positive history window, a transmission older than
the cutoff is excluded from the API queryset entirely (so list and detail
requests do not return its metadata at all), while the serializer method
`get_audio_file` — for a context in which such a transmission is serialized
— withholds exactly the audio reference (null). -/
theorem history_cutoff_excludes_and_withholds
    (anonymousTime now : Int) (user : UserRec) (t : TransmissionRec)
    (queryset : List TransmissionRec)
    (hpos : 0 < historyMinutesFor anonymousTime user)
    (hold : t.startDatetime < now - historyMinutesFor anonymousTime user * 60) :
    TransmissionSerializer.getAudioFile anonymousTime now true user t = none ∧
    t ∉ HistoryLimitMixin.applyHistoryLimit anonymousTime now user queryset := by
  constructor
  · simp [TransmissionSerializer.getAudioFile, hpos, hold]
  · simp only [HistoryLimitMixin.applyHistoryLimit, if_pos hpos]
    intro hmem
    have := (List.mem_filter.mp hmem).2
    simp only [decide_eq_true_eq] at this
    omega

/-- Witness for the amended C4 at the concrete 60-minute/120-minute
scenario. -/
theorem history_cutoff_excludes_and_withholds_witness :
    (0 < historyMinutesFor 43200 planSixtyUser) ∧
    (oldTransmission.startDatetime < 7200 - historyMinutesFor 43200 planSixtyUser * 60) ∧
    (TransmissionSerializer.getAudioFile 43200 7200 true planSixtyUser oldTransmission = none ∧
      oldTransmission ∉ HistoryLimitMixin.applyHistoryLimit 43200 7200 planSixtyUser
        [oldTransmission]) := by
  refine ⟨by decide, by decide, ?_⟩
  exact history_cutoff_excludes_and_withholds 43200 7200 planSixtyUser
    oldTransmission [oldTransmission] (by decide) (by decide)

/-- The event payload the fan-out publishes: the fields of
`Transmission.as_dict` (radio/models.py lines 440-451) plus the
`scan-groups` key the signal adds (radio/models.py line 920). -/
structure TransmissionEventPayload where
  slug : String
  startDatetime : Int
  talkgroupSlug : String
  talkgroupDecId : Int
  talkgroupName : String
  systemName : String
  emergency : Bool
  playLength : Int
  scanGroups : List String
deriving Repr, DecidableEq

/-- `Transmission.as_dict` (radio/models.py lines 440-451); `tgInfo` is the
row the `talkgroup_info` FK dereferences to (for `talkgroup_slug`).
`scanGroups` is empty here — the signal fills it in before publishing. -/
def TransmissionRec.asDict (tgInfo : TalkGroupRow) (t : TransmissionRec) :
    TransmissionEventPayload :=
  { slug := t.slug, startDatetime := t.startDatetime,
    talkgroupSlug := tgInfo.slug, talkgroupDecId := t.talkgroupDecId,
    talkgroupName := t.talkgroupName, systemName := t.systemName,
    emergency := t.emergency, playLength := t.playLength, scanGroups := [] }

/-- One `group_send` performed by the fan-out. -/
structure PublishedMessage where
  channel : String
  payload : TransmissionEventPayload
deriving Repr, DecidableEq

/-- The `post_save` signal `send_transmission_notification`
(radio/models.py lines 892-932).  `tgInfo` is the row `talkgroup_info`
currently references; `channelLayerAvailable = false` models
`get_channel_layer()` returning `None` or the send raising (the except
branch logs and swallows, leaving the database update in place).  On a
create it first updates the talkgroup's `last_transmission` via a filtered
UPDATE, then queries scanlist membership at emit time and performs a single
`group_send` to `livecall-scan-default` with the `as_dict` projection plus
`scan-groups`. -/
def sendTransmissionNotification (channelLayerAvailable : Bool) (now : Int)
    (db : DB) (t : TransmissionRec) (tgInfo : TalkGroupRow) (created : Bool) :
    DB × List PublishedMessage :=
  let db1 :=
    if created then
      { db with talkgroups := db.talkgroups.map (fun tg =>
          if some tg.pk == t.talkgroupInfoId then
            { tg with lastTransmission := some now }
          else tg) }
    else db
  if !channelLayerAvailable then (db1, [])
  else
    let scanSlugs := (db1.scanlists.filter (fun s =>
      s.talkgroups.any (fun m => m == tgInfo.pk))).map (fun s => s.slug)
    (db1, [{ channel := "livecall-scan-default",
             payload := { t.asDict tgInfo with scanGroups := scanSlugs } }])

/-- The channel name the gateway builds for a connection path
(radio/consumers.py line 43): `livecall-<channel_type>-<label>`. -/
def livecallChannel (channelType label : String) : String :=
  "livecall-" ++ channelType ++ "-" ++ label

/-- The talkgroup row of `dbForFanout` (slug "metro-pd"). -/
def fanoutTalkgroup : TalkGroupRow :=
  { pk := 2, systemPk := 1, decId := 1000, alphaTag := "PD",
    commonName := "", isPublic := true, slug := "metro-pd",
    lastTransmission := none }

/-- A database where talkgroup 2 (slug "metro-pd") belongs to scanlist
"s1". -/
def dbForFanout : DB :=
  { DB.empty with
    systems := [{ pk := 1, name := "Metro", slug := "metro" }]
    talkgroups := [fanoutTalkgroup]
    scanlists := [{ pk := 3, slug := "s1", talkgroups := [2] }]
    nextPk := 4 }

/-- A transmission on that talkgroup. -/
def fanoutTransmission : TransmissionRec :=
  { pk := 9, slug := "tx9", startDatetime := 100, endDatetime := some 110,
    playLength := 10, audioFile := "a.mp3", systemId := some 1,
    talkgroupInfoId := some 2, talkgroupDecId := 1000,
    talkgroupName := "PD", systemName := "Metro", unitsJson := [],
    freq := none, emergency := false }

/-- C3 counterexample: for a freshly created transmission on a talkgroup
that belongs to scanlist "s1", the fan-out publishes to the default channel
only — neither the talkgroup-scoped channel `livecall-tg-metro-pd` nor the
scanlist-scoped channel `livecall-scan-s1` receives the event (the scanlist
slugs only ride along inside the payload's `scan-groups` field). -/
theorem fanout_missing_talkgroup_and_scanlist_channels_cex :
    ((sendTransmissionNotification true 200 dbForFanout fanoutTransmission
        fanoutTalkgroup true).2.map PublishedMessage.channel =
      ["livecall-scan-default"]) ∧
    (livecallChannel "tg" "metro-pd" ∉
      (sendTransmissionNotification true 200 dbForFanout fanoutTransmission
        fanoutTalkgroup true).2.map PublishedMessage.channel) ∧
    (livecallChannel "scan" "s1" ∉
      (sendTransmissionNotification true 200 dbForFanout fanoutTransmission
        fanoutTalkgroup true).2.map PublishedMessage.channel) ∧
    ((dbForFanout.scanlists.filter (fun s =>
        s.talkgroups.any (fun m => m == fanoutTalkgroup.pk))).map
      (fun s => s.slug) = ["s1"]) := by
  decide

/-- C3 amended: the fan-out always publishes exactly one event, to the
default channel `livecall-scan-default`; the scanlist slugs currently
containing the talkgroup (queried at emit time) travel inside the payload's
`scan-groups` field rather than addressing scanlist channels, and when the
channel layer is unavailable nothing is published at all. -/
theorem fanout_publishes_default_only (now : Int) (db : DB)
    (t : TransmissionRec) (tgInfo : TalkGroupRow) (created : Bool) :
    ((sendTransmissionNotification true now db t tgInfo created).2.map
        PublishedMessage.channel = ["livecall-scan-default"]) ∧
    ((sendTransmissionNotification true now db t tgInfo created).2.map
        (fun m => m.payload.scanGroups) =
      [(db.scanlists.filter (fun s =>
          s.talkgroups.any (fun m => m == tgInfo.pk))).map (fun s => s.slug)]) ∧
    ((sendTransmissionNotification false now db t tgInfo created).2 = []) := by
  cases created <;> exact ⟨rfl, rfl, rfl⟩

/-- The character list of the pattern `"Token "` the permission check
strips. -/
def tokenPat : List Char := ['T', 'o', 'k', 'e', 'n', ' ']

/-- `HasTransmissionImportToken.has_permission` (radio/api/views.py lines
70-75): the `Authorization` header value with every occurrence of
`"Token "` removed (Python `str.replace`) must equal the configured
`ADD_TRANS_AUTH_TOKEN` secret. -/
def HasTransmissionImportToken.hasPermission (authHeader addTransAuthToken : String) : Bool :=
  pyReplace authHeader "Token " "" == addTransAuthToken

/-- The import endpoint as dispatched by DRF: `check_permissions` runs
before the handler, so a permission failure answers 403 without entering
`post` — no entity is created or mutated. -/
def importTransmissionEndpoint (fixAudioName : Bool) (addTransAuthToken authHeader : String)
    (now : Int) (payload : ImportPayload) (db : DB) : ImportResponse × DB :=
  if HasTransmissionImportToken.hasPermission authHeader addTransAuthToken then
    TransmissionImportView.post fixAudioName now payload db
  else
    ({ status := 403, transmissionId := none }, db)

/-- When the pattern occurs nowhere in `s`, `pyReplaceAux` is the
identity, for any fuel. -/
theorem pyReplaceAux_no_occurrence (pat repl : List Char) :
    ∀ (fuel : Nat) (s : List Char), ¬ pat <:+: s →
      pyReplaceAux pat repl fuel s = s := by
  intro fuel
  induction fuel with
  | zero => intro s h; cases s <;> rfl
  | succ n ih =>
    intro s h
    match s with
    | [] => rfl
    | c :: rest =>
      simp only [pyReplaceAux]
      rw [if_neg, ih rest (fun hin => h (List.infix_cons hin))]
      rintro ⟨hne, hpre⟩
      exact h (List.IsPrefix.isInfix (List.isPrefixOf_iff_prefix.mp hpre))

/-- Stripping the leading `"Token "` from `tokenPat ++ sl` leaves `sl`
unchanged when the pattern occurs nowhere in `sl`. -/
theorem pyReplaceAux_token_strip (sl : List Char) (h : ¬ tokenPat <:+: sl) :
    pyReplaceAux tokenPat [] (sl.length + 6) (tokenPat ++ sl) = sl := by
  have hstep : pyReplaceAux tokenPat [] (sl.length + 6) (tokenPat ++ sl) =
      pyReplaceAux tokenPat [] (sl.length + 5) sl := by
    show pyReplaceAux tokenPat [] (sl.length + 5 + 1)
      ('T' :: 'o' :: 'k' :: 'e' :: 'n' :: ' ' :: sl) = _
    simp only [pyReplaceAux]
    rw [if_pos]
    · rfl
    · exact ⟨by decide, by simp [tokenPat, List.isPrefixOf]⟩
  rw [hstep, pyReplaceAux_no_occurrence tokenPat [] (sl.length + 5) sl h]

/-- When the secret does not contain `"Token "`, both the well-formed
header `"Token <secret>"` and the bare secret pass the permission check. -/
theorem hasPermission_token_forms (secret : String)
    (h : ¬ tokenPat <:+: secret.toList) :
    HasTransmissionImportToken.hasPermission ("Token " ++ secret) secret = true ∧
    HasTransmissionImportToken.hasPermission secret secret = true := by
  have heq : ("Token " ++ secret).toList = tokenPat ++ secret.toList := by
    show ("Token " ++ secret).data = tokenPat ++ secret.data
    rw [String.data_append]; rfl
  constructor
  · show (pyReplace ("Token " ++ secret) "Token " "" == secret) = true
    rw [beq_iff_eq]
    show String.mk (pyReplaceAux "Token ".toList "".toList
      ("Token " ++ secret).toList.length ("Token " ++ secret).toList) = secret
    rw [heq]
    rw [show (tokenPat ++ secret.toList).length = secret.toList.length + 6 from by
      simp [tokenPat, List.length_append]]
    rw [show ("Token ".toList : List Char) = tokenPat from rfl]
    rw [show ("".toList : List Char) = [] from rfl]
    rw [pyReplaceAux_token_strip secret.toList h]
    rfl
  · show (pyReplace secret "Token " "" == secret) = true
    rw [beq_iff_eq]
    show String.mk (pyReplaceAux "Token ".toList "".toList
      secret.toList.length secret.toList) = secret
    rw [show ("Token ".toList : List Char) = tokenPat from rfl]
    rw [pyReplaceAux_no_occurrence tokenPat "".toList secret.toList.length
      secret.toList h]
    rfl

/-- C6 counterexample: the bare secret with no `Token ` scheme passes the
check (so access is granted for a header NOT of the form
`Token <secret>`), while for a secret that itself contains `"Token "` the
exactly well-formed header `Token <secret>` is rejected. -/
theorem import_token_not_exact_match_cex :
    HasTransmissionImportToken.hasPermission "s3cret" "s3cret" = true ∧
    "s3cret" ≠ "Token " ++ "s3cret" ∧
    HasTransmissionImportToken.hasPermission ("Token " ++ "xToken y") "xToken y" = false := by
  decide

/-- C6 amended: the check grants access exactly when the header with every
occurrence of `"Token "` deleted equals the secret — so for a secret not
containing `"Token "` both `Token <secret>` and the bare secret are
accepted — and any header failing the check is answered 403 by the
endpoint with the database untouched and nothing created. -/
theorem import_token_replace_matching (secret header : String) (fixAudioName : Bool)
    (now : Int) (payload : ImportPayload) (db : DB)
    (hsec : ¬ tokenPat <:+: secret.toList)
    (hfail : HasTransmissionImportToken.hasPermission header secret = false) :
    HasTransmissionImportToken.hasPermission ("Token " ++ secret) secret = true ∧
    HasTransmissionImportToken.hasPermission secret secret = true ∧
    importTransmissionEndpoint fixAudioName secret header now payload db =
      ({ status := 403, transmissionId := none }, db) := by
  obtain ⟨h1, h2⟩ := hasPermission_token_forms secret hsec
  refine ⟨h1, h2, ?_⟩
  unfold importTransmissionEndpoint
  rw [hfail]
  rfl

/-- Witness for the amended C6 at a concrete secret and failing header. -/
theorem import_token_replace_matching_witness :
    (¬ tokenPat <:+: "s3cret".toList) ∧
    (HasTransmissionImportToken.hasPermission "wrong" "s3cret" = false) ∧
    (HasTransmissionImportToken.hasPermission ("Token " ++ "s3cret") "s3cret" = true ∧
      HasTransmissionImportToken.hasPermission "s3cret" "s3cret" = true ∧
      importTransmissionEndpoint false "s3cret" "wrong" 0 samplePayloadNoUnits DB.empty =
        ({ status := 403, transmissionId := none }, DB.empty)) := by
  refine ⟨by decide, by decide, ?_⟩
  exact import_token_replace_matching "s3cret" "wrong" false 0
    samplePayloadNoUnits DB.empty (by decide) (by decide)

/-- A client control message after `json.loads` and the `data.get("type")` /
`data.get("channel")` dispatch in `RadioConsumer.receive`
(radio/consumers.py lines 86-129): `channel = none` when the key is missing
or null; `other` is a parsed object with an unrecognized type;
`invalidJson` is a body `json.loads` rejects. -/
inductive ClientMessage
  | ping
  | subscribe (channel : Option String)
  | unsubscribe (channel : Option String)
  | other
  | invalidJson
deriving Repr, DecidableEq

/-- A message the consumer sends back over the socket. -/
inductive ServerMessage
  | pong
  | subscribed (channel : String)
  | unsubscribed (channel : String)
deriving Repr, DecidableEq

/-- A channel-layer call the consumer performs. -/
inductive ChannelLayerOp
  | groupAdd (group selfChannel : String)
  | groupDiscard (group selfChannel : String)
deriving Repr, DecidableEq

/-- The outcome of one `receive` call: the connection's updated
`self.groups` list, the socket sends, and the channel-layer calls. -/
structure ReceiveResult where
  groups : List String
  sends : List ServerMessage
  layerOps : List ChannelLayerOp
deriving Repr, DecidableEq

/-- `RadioConsumer.receive` (radio/consumers.py lines 86-129).  Python
truthiness: a missing/null/empty channel is falsy.  For unsubscribe the
guard is `if channel and channel in self.groups`; `self.groups.remove`
drops the first occurrence.  Malformed or unrecognized messages fall
through with no effect (logged only). -/
def RadioConsumer.receive (selfChannelName : String) (groups : List String)
    (msg : ClientMessage) : ReceiveResult :=
  match msg with
  | .ping => { groups := groups, sends := [.pong], layerOps := [] }
  | .subscribe ch =>
    match ch with
    | some c =>
      if c ≠ "" then
        { groups := groups ++ [c], sends := [.subscribed c],
          layerOps := [.groupAdd c selfChannelName] }
      else { groups := groups, sends := [], layerOps := [] }
    | none => { groups := groups, sends := [], layerOps := [] }
  | .unsubscribe ch =>
    match ch with
    | some c =>
      if c ≠ "" ∧ c ∈ groups then
        { groups := groups.erase c, sends := [.unsubscribed c],
          layerOps := [.groupDiscard c selfChannelName] }
      else { groups := groups, sends := [], layerOps := [] }
    | none => { groups := groups, sends := [], layerOps := [] }
  | .other => { groups := groups, sends := [], layerOps := [] }
  | .invalidJson => { groups := groups, sends := [], layerOps := [] }

/-- C7 counterexample: an unsubscribe for a channel the connection is not a
member of leaves the membership unchanged but sends NO acknowledgment at
all — the `unsubscribed` reply is only sent inside the
`channel in self.groups` branch. -/
theorem unsubscribe_nonmember_not_acknowledged_cex :
    (RadioConsumer.receive "conn1" ["livecall-scan-default"]
      (.unsubscribe (some "livecall-tg-x"))).groups = ["livecall-scan-default"] ∧
    (RadioConsumer.receive "conn1" ["livecall-scan-default"]
      (.unsubscribe (some "livecall-tg-x"))).sends = [] ∧
    ServerMessage.unsubscribed "livecall-tg-x" ∉
      (RadioConsumer.receive "conn1" ["livecall-scan-default"]
        (.unsubscribe (some "livecall-tg-x"))).sends := by
  decide

/-- C7 amended: unsubscribing a channel the connection is a member of
removes it (first occurrence) from the membership, discards it on the
channel layer and acknowledges with `unsubscribed`; unsubscribing a channel
it is not a member of changes nothing and is NOT acknowledged (no reply at
all). -/
theorem unsubscribe_member_ack_nonmember_silent (selfChannelName c d : String)
    (groups : List String) (hc : c ≠ "") (hcm : c ∈ groups) (hd : d ∉ groups) :
    RadioConsumer.receive selfChannelName groups (.unsubscribe (some c)) =
      { groups := groups.erase c, sends := [.unsubscribed c],
        layerOps := [.groupDiscard c selfChannelName] } ∧
    RadioConsumer.receive selfChannelName groups (.unsubscribe (some d)) =
      { groups := groups, sends := [], layerOps := [] } := by
  constructor
  · simp [RadioConsumer.receive, hc, hcm]
  · simp [RadioConsumer.receive, hd]

/-- Witness for the amended C7 at a concrete membership list. -/
theorem unsubscribe_member_ack_nonmember_silent_witness :
    ("livecall-tg-a" : String) ≠ "" ∧
    "livecall-tg-a" ∈ ["livecall-tg-a", "livecall-scan-default"] ∧
    "livecall-tg-b" ∉ ["livecall-tg-a", "livecall-scan-default"] ∧
    (RadioConsumer.receive "conn1" ["livecall-tg-a", "livecall-scan-default"]
        (.unsubscribe (some "livecall-tg-a")) =
      { groups := ["livecall-tg-a", "livecall-scan-default"].erase "livecall-tg-a",
        sends := [.unsubscribed "livecall-tg-a"],
        layerOps := [.groupDiscard "livecall-tg-a" "conn1"] } ∧
      RadioConsumer.receive "conn1" ["livecall-tg-a", "livecall-scan-default"]
        (.unsubscribe (some "livecall-tg-b")) =
      { groups := ["livecall-tg-a", "livecall-scan-default"], sends := [],
        layerOps := [] }) := by
  refine ⟨by decide, by decide, by decide, ?_⟩
  exact unsubscribe_member_ack_nonmember_silent "conn1" "livecall-tg-a"
    "livecall-tg-b" ["livecall-tg-a", "livecall-scan-default"]
    (by decide) (by decide) (by decide)

/-- Program counter of one concurrent caller of
`TalkGroup.objects.get_or_create(system=..., dec_id=...)` for a fixed,
previously unseen natural key, following Django's
`QuerySet.get_or_create`: an initial `get` (fast path), on miss a `create`
INSERT guarded by the `unique_talkgroup_per_system` constraint
(radio/models.py lines 158-163), and on `IntegrityError` a retry of the
`get`; `failed` is the branch that re-raises when even the retry finds
nothing. -/
inductive GocPC
  | tryGet
  | tryCreate
  | retryGet
  | done (pk : Nat)
  | failed
deriving Repr, DecidableEq

/-- Whether the caller has returned a row. -/
def GocPC.isDone : GocPC → Bool
  | .done _ => true
  | _ => false

/-- Shared state of the race: `rows` are the pks of the TalkGroup rows
carrying the contested `(system, dec_id)` key — the unique constraint makes
an INSERT fail whenever this is non-empty — plus the pk sequence and each
caller's program counter.  Nothing ever deletes a row. -/
structure GocState where
  rows : List Nat
  nextPk : Nat
  procs : List GocPC
deriving Repr, DecidableEq

/-- One atomic database interaction of a single caller: each of the `get`,
the constrained INSERT, and the retry `get` is one atomic step, so steps of
different callers interleave arbitrarily. -/
def gocStepProc (rows : List Nat) (nextPk : Nat) :
    GocPC → GocPC × List Nat × Nat
  | .tryGet =>
    match rows with
    | pk :: _ => (.done pk, rows, nextPk)
    | [] => (.tryCreate, rows, nextPk)
  | .tryCreate =>
    match rows with
    | [] => (.done nextPk, rows ++ [nextPk], nextPk + 1)
    | _ :: _ => (.retryGet, rows, nextPk)
  | .retryGet =>
    match rows with
    | pk :: _ => (.done pk, rows, nextPk)
    | [] => (.failed, rows, nextPk)
  | pc => (pc, rows, nextPk)

/-- Run one step of the caller the schedule picks (out-of-range or finished
callers leave the state unchanged). -/
def gocStep (s : GocState) (i : Nat) : GocState :=
  match s.procs.get? i with
  | none => s
  | some pc =>
    let r := gocStepProc s.rows s.nextPk pc
    { rows := r.2.1, nextPk := r.2.2, procs := s.procs.set i r.1 }

/-- `n` callers about to race on a key no row carries yet. -/
def gocInit (n : Nat) : GocState :=
  { rows := [], nextPk := 1, procs := List.replicate n .tryGet }

/-- Run the race under an arbitrary interleaving. -/
def gocRun (n : Nat) (schedule : List Nat) : GocState :=
  schedule.foldl gocStep (gocInit n)

/-- Race invariant: at most one row ever carries the key; while no row
exists every caller is before its INSERT; once a row exists every caller is
either still on its way or has returned exactly that row (and nobody has
failed). -/
def GocInv (s : GocState) : Prop :=
  s.rows.length ≤ 1 ∧
  (s.rows = [] → ∀ pc ∈ s.procs, pc = GocPC.tryGet ∨ pc = GocPC.tryCreate) ∧
  (∀ pk, s.rows = [pk] → ∀ pc ∈ s.procs,
    pc = GocPC.tryGet ∨ pc = GocPC.tryCreate ∨ pc = GocPC.retryGet ∨
      pc = GocPC.done pk)

/-- Every schedule step preserves the race invariant. -/
theorem gocStep_inv (s : GocState) (i : Nat) (h : GocInv s) :
    GocInv (gocStep s i) := by
  obtain ⟨hlen, hempty, hone⟩ := h
  unfold gocStep
  cases hget : s.procs.get? i with
  | none => exact ⟨hlen, hempty, hone⟩
  | some pc =>
    have hmem : pc ∈ s.procs := List.get?_mem hget
    rcases hrows : s.rows with _ | ⟨pk, rest⟩
    · -- no row yet: the caller is at tryGet or tryCreate
      rcases hempty hrows pc hmem with hpc | hpc <;> subst hpc <;>
        dsimp only [gocStepProc]
      · -- get misses: caller moves on to tryCreate, rows stay empty
        refine ⟨by simp, fun _ pc2 hmem2 => ?_, fun pk2 hab => by simp at hab⟩
        rcases List.mem_or_eq_of_mem_set hmem2 with h2 | h2
        · exact hempty hrows pc2 h2
        · exact Or.inr h2
      · -- INSERT succeeds: the single row appears, the caller is done with it
        refine ⟨by simp, fun hab => by simp at hab, fun pk2 hab pc2 hmem2 => ?_⟩
        simp only [List.nil_append, List.cons.injEq] at hab
        rcases List.mem_or_eq_of_mem_set hmem2 with h2 | h2
        · rcases hempty hrows pc2 h2 with h3 | h3
          · exact Or.inl h3
          · exact Or.inr (Or.inl h3)
        · exact Or.inr (Or.inr (Or.inr (by rw [h2, hab.1])))
    · -- a row already exists
      rcases rest with _ | ⟨b, rest⟩
      · -- exactly one row: steps leave it in place and only finish callers
        rcases hone pk hrows pc hmem with hpc | hpc | hpc | hpc <;> subst hpc <;>
          dsimp only [gocStepProc] <;>
          refine ⟨by simp, fun hab => by simp at hab, fun pk2 hab pc2 hmem2 => ?_⟩ <;>
          simp only [List.cons.injEq] at hab <;>
          rcases List.mem_or_eq_of_mem_set hmem2 with h2 | h2
        · exact hab.1 ▸ hone pk hrows pc2 h2
        · exact Or.inr (Or.inr (Or.inr (by rw [h2, hab.1])))
        · exact hab.1 ▸ hone pk hrows pc2 h2
        · exact Or.inr (Or.inr (Or.inl h2))
        · exact hab.1 ▸ hone pk hrows pc2 h2
        · exact Or.inr (Or.inr (Or.inr (by rw [h2, hab.1])))
        · exact hab.1 ▸ hone pk hrows pc2 h2
        · exact Or.inr (Or.inr (Or.inr (by rw [h2, hab.1])))
      · -- two or more rows: impossible by the length bound
        rw [hrows] at hlen
        simp at hlen

/-- The race invariant holds after any schedule. -/
theorem gocRun_inv (n : Nat) (schedule : List Nat) : GocInv (gocRun n schedule) := by
  unfold gocRun
  have hinit : GocInv (gocInit n) := by
    refine ⟨by simp [gocInit], fun _ pc hmem => ?_, fun pk hab => by simp [gocInit] at hab⟩
    exact Or.inl (List.eq_of_mem_replicate hmem)
  generalize gocInit n = s0 at hinit
  induction schedule generalizing s0 with
  | nil => exact hinit
  | cons i rest ih => exact ih (gocStep s0 i) (gocStep_inv s0 i hinit)

/-- A schedule never changes the number of callers. -/
theorem gocRun_procs_length (n : Nat) (schedule : List Nat) :
    (gocRun n schedule).procs.length = n := by
  unfold gocRun
  have hinit : (gocInit n).procs.length = n := by simp [gocInit]
  generalize gocInit n = s0 at hinit
  induction schedule generalizing s0 with
  | nil => exact hinit
  | cons i rest ih =>
    refine ih (gocStep s0 i) ?_
    unfold gocStep
    cases hget : s0.procs.get? i with
    | none => exact hinit
    | some pc => simpa using hinit

/-- C9: for any number `n ≥ 1` of concurrent `get_or_create` callers racing
on the same previously unseen `(system, dec_id)` key and any interleaving
under which they all complete, exactly one TalkGroup row with that key
exists afterwards and every caller returned that single row (so each
caller's transmission would reference it); safety comes from the unique
constraint plus the IntegrityError-retry, not from the initial
existence-check read. -/
theorem talkgroup_get_or_create_race_single_row (n : Nat) (schedule : List Nat)
    (hn : 0 < n) (hdone : (gocRun n schedule).procs.all GocPC.isDone = true) :
    ∃ pk, (gocRun n schedule).rows = [pk] ∧
      ∀ pc ∈ (gocRun n schedule).procs, pc = GocPC.done pk := by
  obtain ⟨hlen, hempty, hone⟩ := gocRun_inv n schedule
  rw [List.all_eq_true] at hdone
  rcases hrows : (gocRun n schedule).rows with _ | ⟨pk, rest⟩
  · -- impossible: with no row nobody can be done, yet some caller exists
    exfalso
    have hlength := gocRun_procs_length n schedule
    rcases hprocs : (gocRun n schedule).procs with _ | ⟨pc0, procs⟩
    · rw [hprocs] at hlength
      simp at hlength
      omega
    · have hm : pc0 ∈ (gocRun n schedule).procs := by rw [hprocs]; exact List.mem_cons_self pc0 procs
      rcases hempty hrows pc0 hm with h2 | h2 <;>
        · have := hdone pc0 hm
          rw [h2] at this
          simp [GocPC.isDone] at this
  · rcases rest with _ | ⟨b, rest⟩
    · refine ⟨pk, rfl, fun pc hmem => ?_⟩
      rcases hone pk hrows pc hmem with h2 | h2 | h2 | h2
      · have := hdone pc hmem
        rw [h2] at this
        simp [GocPC.isDone] at this
      · have := hdone pc hmem
        rw [h2] at this
        simp [GocPC.isDone] at this
      · have := hdone pc hmem
        rw [h2] at this
        simp [GocPC.isDone] at this
      · exact h2
    · rw [hrows] at hlen
      simp at hlen

/-- Witness for C9: two callers racing on the same fresh key under a
concrete interleaving in which both miss the initial get, one INSERT wins
and the other hits the unique constraint and retries the read. -/
theorem talkgroup_get_or_create_race_single_row_witness :
    0 < 2 ∧ (gocRun 2 [0, 1, 0, 1, 1]).procs.all GocPC.isDone = true ∧
    ∃ pk, (gocRun 2 [0, 1, 0, 1, 1]).rows = [pk] ∧
      ∀ pc ∈ (gocRun 2 [0, 1, 0, 1, 1]).procs, pc = GocPC.done pk := by
  refine ⟨by decide, by decide, ?_⟩
  exact talkgroup_get_or_create_race_single_row 2 [0, 1, 0, 1, 1]
    (by decide) (by decide)
